import Mathlib

/-!
Verification of the almapiwrapper remote-record kernel.

Shallow embedding of the Python source under `src/almapiwrapper/`:
pure data flow of `record.py` (the `Record` base class, the `check_error`
decorator, the `_api_call` transport loop, `_save_from_path`,
`_handle_error`), `config/recset.py` (`RecSet.__new__`, `RecSet.__init__`,
`RecSet.get_members`), `acquisitions/vendor.py` (`Vendor.__init__`) and
`apikeys.py` (`ApiKeys.get_key`).  Python strings used in filenames are
modelled as lists of characters; Python exceptions as explicit outcome
constructors; the HTTP transport as an oracle function from the attempt
number to an optional response.
-/

namespace Almapi

/-! ### Transport invoker: `Record._api_call` (record.py lines 72-97)

The Python loop iterates `api_try` over the literal list `[1, 2, 3]`.
Each iteration either obtains a response (returned immediately) or
catches a `requests.exceptions.RequestException`: it then logs an error,
tests `api_try == 300` (logging critical and calling `exit()` when true)
and sleeps three seconds before the next iteration.  Falling off the end
of the loop returns `None` implicitly.  The transport is modelled as an
oracle from the attempt number to `Option Response`, `none` meaning the
request raised a transport-level exception. -/

structure Response where
  ok : Bool
  deriving DecidableEq, Repr

/-- Outcome of `_api_call`: either control returns to the caller with an
optional response, or the process exits via `exit()`. -/
inductive ApiCallResult
  | returned (r : Option Response)
  | exited
  deriving DecidableEq, Repr

/-- Observable trace of one `_api_call` invocation: its outcome, the number
of transport attempts made, error-severity log entries, critical-severity
log entries, and total seconds slept. -/
structure ApiCallTrace where
  result : ApiCallResult
  attempts : Nat
  errorLogs : Nat
  criticalLogs : Nat
  sleptSeconds : Nat
  deriving DecidableEq, Repr

/-- The retry loop body of `_api_call`, iterating over the remaining
attempt numbers (Python: `for api_try in [1, 2, 3]`). -/
def apiCallLoop (transport : Nat → Option Response) :
    List Nat → Nat → Nat → Nat → ApiCallTrace
  | [], attempts, errLogs, slept =>
      ApiCallTrace.mk (ApiCallResult.returned none) attempts errLogs 0 slept
  | apiTry :: rest, attempts, errLogs, slept =>
      match transport apiTry with
      | some r =>
          ApiCallTrace.mk (ApiCallResult.returned (some r)) (attempts + 1) errLogs 0 slept
      | none =>
          if apiTry = 300 then
            ApiCallTrace.mk ApiCallResult.exited (attempts + 1) (errLogs + 1) 1 slept
          else
            apiCallLoop transport rest (attempts + 1) (errLogs + 1) (slept + 3)

/-- `Record._api_call`: an unknown HTTP verb returns `None` without any
transport attempt (the `else: return None` branch inside the loop body);
otherwise the retry loop runs over attempt numbers `[1, 2, 3]`. -/
def apiCall (method : String) (transport : Nat → Option Response) : ApiCallTrace :=
  if method = "get" ∨ method = "put" ∨ method = "post" ∨ method = "delete" then
    apiCallLoop transport [1, 2, 3] 0 0 0
  else
    ApiCallTrace.mk (ApiCallResult.returned none) 0 0 0 0

/-! ### Error state, lazy data cell and the `check_error` guard
(record.py lines 12-30 and 120-137)

A `Record` carries `self.error : bool` and `self._data` (the cached
payload, `None` until fetched).  The `data` property fetches through the
subtype's `_fetch_data` when the cache is empty and `error` is false;
every concrete `_fetch_data` in the repository (`RecSet._fetch_data`,
`Vendor._fetch_data`, ...) either returns a parsed payload or returns
`None` after setting `error = True` and `error_msg` via `_handle_error`
(or directly, in the search-by-name branch).  The fetch is therefore
modelled as an outcome that is either a payload or a failure message. -/

structure RecordState (α : Type) where
  error : Bool
  errorMsg : Option String
  cached : Option α
  deriving DecidableEq, Repr

/-- Outcome of one call to the subtype's `_fetch_data`: a payload, or a
failure that has set the error flag and message on the record. -/
inductive FetchOutcome (α : Type)
  | success (p : α)
  | failure (msg : String)
  deriving DecidableEq, Repr

/-- One read of the `data` property (record.py lines 120-129).  Returns the
state after the read, the value the property yields, and whether a network
fetch was performed.  The fetch runs exactly when the cache is empty and
the error flag is false; its result is stored through the `data` setter,
a failed fetch having set `error = True` and `error_msg` inside
`_fetch_data` / `_handle_error`. -/
def dataRead (st : RecordState α) (fetch : FetchOutcome α) :
    RecordState α × Option α × Bool :=
  if st.cached.isNone ∧ st.error = false then
    match fetch with
    | FetchOutcome.success p =>
        (RecordState.mk st.error st.errorMsg (some p), some p, true)
    | FetchOutcome.failure m =>
        (RecordState.mk true (some m) none, none, true)
  else
    (st, st.cached, false)

/-- Observable trace of one call to a `check_error`-guarded operation. -/
structure GuardTrace (α : Type) where
  state : RecordState α
  bodyRan : Bool
  fetched : Bool
  httpRequests : Nat
  skipLoggedFor : Option String
  deriving DecidableEq, Repr

/-- The `check_error` decorator's wrapper (record.py lines 12-30).  Python
evaluates `rec.error is False and rec.data is not None`: the conjunction
short-circuits, so the `data` property (and with it any lazy fetch) is
only evaluated when the error flag is false.  When the condition holds the
wrapped function runs on the (possibly fetch-updated) receiver; otherwise
a skip notice naming the function is logged and the receiver is returned
unchanged.  `body` maps the receiver's state to the state after the
wrapped function plus the number of HTTP requests the body itself issues;
a performed fetch contributes one further request. -/
def guardedCall (fnName : String) (st : RecordState α) (fetch : FetchOutcome α)
    (body : RecordState α → RecordState α × Nat) : GuardTrace α :=
  if st.error = false then
    let read := dataRead st fetch
    let fetchRequests : Nat := if read.2.2 then 1 else 0
    if read.2.1.isSome then
      GuardTrace.mk (body read.1).1 true read.2.2
        ((body read.1).2 + fetchRequests) none
    else
      GuardTrace.mk read.1 false read.2.2 fetchRequests (some fnName)
  else
    GuardTrace.mk st false false 0 (some fnName)

/-- Two consecutive reads of the `data` property with no intervening
assignment: the oracle `f1` answers a first fetch, `f2` a second one. -/
def dataReadTwice (st : RecordState α) (f1 f2 : FetchOutcome α) :
    RecordState α × (Option α × Option α) × (Bool × Bool) :=
  let r1 := dataRead st f1
  let r2 := dataRead r1.1 f2
  (r2.1, (r1.2.1, r2.2.1), (r1.2.2, r2.2.2))

/-! ### Polymorphic subtype resolution: `RecSet.__new__`
(config/recset.py lines 30-38)

`__new__` receives the constructor arguments as `*args, **kwargs`.  It
first tests `if 'data' not in kwargs` — a payload passed positionally is
therefore invisible to the dispatch and the generic class is allocated.
When the key is present, `kwargs['data'].content` is read (raising
`AttributeError` when the caller passed `data=None` explicitly) and the
text of the `.//type` element decides between `ItemizedSet` and
`LogicalSet`; a payload without a `type` element makes
`data.find('.//type')` return `None`, whose `.text` raises
`AttributeError`. -/

/-- The set payload as `__new__` and `__init__` inspect it: presence and
text of the `type` element, presence and text of the `id` element
(`lxml` element text may itself be `None`, hence the nested `Option`). -/
structure SetPayload where
  typeElem : Option (Option String)
  idElem : Option (Option String)
  deriving DecidableEq, Repr

/-- Runtime class allocated by `RecSet.__new__`. -/
inductive SetKind
  | generic
  | logicalSet
  | itemizedSet
  deriving DecidableEq, Repr

/-- Result of running `RecSet.__new__`. -/
inductive NewOutcome
  | made (k : SetKind)
  | raisedAttributeError
  deriving DecidableEq, Repr

/-- Only `ItemizedSet` defines `add_members` (config/recset.py lines
328-343); the generic `RecSet` and `LogicalSet` expose no member-add
behaviour. -/
def hasMemberAdd : SetKind → Bool
  | SetKind.itemizedSet => true
  | _ => false

/-- `RecSet.__new__`.  `dataPositional` is a payload among the positional
`*args` (ignored by the dispatch); `dataKeyword` is the binding of the
`data` key in `kwargs`: `none` when absent, `some none` when the caller
wrote `data=None`, `some (some p)` for a real payload. -/
def recSetNew (_dataPositional : Option SetPayload)
    (dataKeyword : Option (Option SetPayload)) : NewOutcome :=
  match dataKeyword with
  | none => NewOutcome.made SetKind.generic
  | some none => NewOutcome.raisedAttributeError
  | some (some p) =>
      match p.typeElem with
      | none => NewOutcome.raisedAttributeError
      | some t =>
          if t = some "ITEMIZED" then NewOutcome.made SetKind.itemizedSet
          else NewOutcome.made SetKind.logicalSet

/-! ### Paginated member fetch: `RecSet.get_members`
(config/recset.py lines 235-283)

With members not yet cached, the loop runs while the accumulated count is
below `get_members_number()` (the declared total from the set's
metadata): each iteration issues one listing call with params
`limit = 100` and `offset = len(self._members)`, appends the returned
identifiers (the mapping of identifiers to `IzBib`/`NzBib`/`User`/raw-id
members is one member per identifier, so lengths are preserved) and stops
once the count reaches the total.  A failed listing call runs
`_handle_error` and returns the partial list.  The Python `while` loop is
given explicit fuel; `none` marks fuel exhaustion (the loop would still
be running). -/

/-- One listing call: the request parameters recorded as
`(limit, offset)`. -/
abbrev ListingCall := Nat × Nat

/-- The `while` loop of `get_members`.  `listing offset` is the remote
answer to the listing call at that offset: `some ids` on HTTP success,
`none` for a response with `r.ok` false. -/
def getMembersLoop (total : Nat) (listing : Nat → Option (List String)) :
    Nat → List String → List ListingCall →
    Option (List String × List ListingCall × Bool)
  | 0, _, _ => none
  | fuel + 1, members, calls =>
      if members.length < total then
        match listing members.length with
        | none => some (members, calls ++ [(100, members.length)], true)
        | some ids =>
            getMembersLoop total listing fuel (members ++ ids)
              (calls ++ [(100, members.length)])
      else
        some (members, calls, false)

/-- `RecSet.get_members`: a cached member list is returned with no listing
call; otherwise the accumulation loop runs from the empty list.  The
result carries the members, the listing calls issued and whether an HTTP
error aborted the loop. -/
def getMembers (cachedMembers : Option (List String)) (total : Nat)
    (listing : Nat → Option (List String)) (fuel : Nat) :
    Option (List String × List ListingCall × Bool) :=
  match cachedMembers with
  | some ms => some (ms, [], false)
  | none => getMembersLoop total listing fuel [] []

/-! ### Snapshot store: `Record._save_from_path` (record.py lines 157-182)

Filenames are modelled as lists of characters.  The save computes
`version = str(len([f for f in files if base_filename in f]) + 1).zfill(2)`
and writes `f'{base_filename}_{version}.{extension}'` into the directory,
modelled as the list of filenames it contains.  Python's `in` on strings
is the substring test. -/

/-- Decimal rendering of a natural number, mirroring Python's `str`. -/
def natDigits (n : Nat) : List Char :=
  if h : n < 10 then [Char.ofNat (48 + n)]
  else natDigits (n / 10) ++ [Char.ofNat (48 + n % 10)]
termination_by n
decreasing_by exact Nat.div_lt_self (by omega) (by omega)

/-- Python's `str.zfill(2)`: left-pad with `'0'` to length at least two. -/
def zfill2 (s : List Char) : List Char :=
  if s.length < 2 then List.replicate (2 - s.length) '0' ++ s else s

/-- Reads a digit string back into a number; left inverse used to prove
the version suffix injective. -/
def ofDigits (s : List Char) : Nat :=
  s.foldl (fun a c => a * 10 + (c.toNat - 48)) 0

/-- Python `str.startswith` on character lists. -/
def beginsWith : List Char → List Char → Bool
  | [], _ => true
  | _ :: _, [] => false
  | a :: as, b :: bs => a = b && beginsWith as bs

/-- Python's `needle in haystack` substring test on character lists. -/
def containsSub (needle : List Char) : List Char → Bool
  | [] => needle.isEmpty
  | c :: rest => beginsWith needle (c :: rest) || containsSub needle rest

/-- The version number a save computes: the count of files in the
directory whose name contains the base filename, plus one. -/
def saveVersion (dir : List (List Char)) (base : List Char) : Nat :=
  (dir.filter (fun f => containsSub base f)).length + 1

/-- The filename written: `<base>_<version zero-padded to 2>.<ext>`. -/
def snapName (base ext : List Char) (v : Nat) : List Char :=
  base ++ '_' :: (zfill2 (natDigits v) ++ '.' :: ext)

/-- One `_save_from_path` call: the directory gains the versioned file. -/
def saveOnce (dir : List (List Char)) (base ext : List Char) : List (List Char) :=
  dir ++ [snapName base ext (saveVersion dir base)]

/-- `n` consecutive saves of the same record into an initially fresh
(empty) directory. -/
def saveN (base ext : List Char) : Nat → List (List Char)
  | 0 => []
  | n + 1 => saveOnce (saveN base ext n) base ext

/-! ### Error-message extraction: `Record._handle_error`
(record.py lines 212-234)

When `'json' in r.headers['Content-Type']`, the handler calls `r.json()`
(outside any `try`, so an unparsable body raises `JSONDecodeError`) and
evaluates `json_data['errorList']['error'][0]['errorMessage']` inside a
`try` that catches only `KeyError`.  Otherwise it parses the body with
`etree.fromstring` inside a `try` that catches only `XMLSyntaxError` and
takes `.text` of the namespaced `errorMessage` element found by `find` —
`find` returning `None` makes `.text` raise `AttributeError`, which is
not caught. -/

/-- The Python exceptions the extraction can raise or swallow. -/
inductive PyExn
  | keyError
  | indexError
  | typeError
  | attributeError
  | jsonDecodeError
  deriving DecidableEq, Repr

/-- Minimal JSON value shape for the error-list access path. -/
inductive JVal
  | str (s : String)
  | arr (xs : List JVal)
  | obj (fields : List (String × JVal))
  | null

/-- Python subscript `value[key]` on a JSON value: `KeyError` for a
missing key of a dict, `TypeError` when the value is not a dict. -/
def jGetKey : JVal → String → Except PyExn JVal
  | JVal.obj fields, k =>
      match fields.lookup k with
      | some v => Except.ok v
      | none => Except.error PyExn.keyError
  | _, _ => Except.error PyExn.typeError

/-- Python subscript `value[0]` on a JSON value: `IndexError` for an empty
list or empty string, the first element of a non-empty list, the one-char
string for a non-empty string, `KeyError` for a dict (JSON objects carry
string keys, so the integer key 0 is absent), `TypeError` for `None`. -/
def jGetFirst : JVal → Except PyExn JVal
  | JVal.arr [] => Except.error PyExn.indexError
  | JVal.arr (x :: _) => Except.ok x
  | JVal.obj _ => Except.error PyExn.keyError
  | JVal.str s =>
      match s.data with
      | [] => Except.error PyExn.indexError
      | c :: _ => Except.ok (JVal.str (String.mk [c]))
  | JVal.null => Except.error PyExn.typeError

/-- The access chain `json_data['errorList']['error'][0]['errorMessage']`. -/
def jsonErrorChain (jd : JVal) : Except PyExn JVal := do
  let a ← jGetKey jd "errorList"
  let b ← jGetKey a "error"
  let c ← jGetFirst b
  jGetKey c "errorMessage"

/-- The XML body as the handler sees it: presence of the namespaced
`errorMessage` element and, when present, its text (element text may be
`None`). -/
structure XmlErrView where
  errorMessageElem : Option (Option String)
  deriving DecidableEq, Repr

/-- The response fields `_handle_error` reads: whether the content type
contains `'json'`, the result of `r.json()` (`Except.error` standing for
`JSONDecodeError`), and the result of `etree.fromstring` (`Except.error`
standing for `XMLSyntaxError`). -/
structure ErrResponse where
  contentTypeJson : Bool
  jsonBody : Except Unit JVal
  xmlParse : Except Unit XmlErrView

/-- The message extracted by `_handle_error`, or the exception it raises.
An element text of `None` makes the extracted message the Python `None`,
modelled `JVal.null`. -/
def handleErrorExtract (r : ErrResponse) : Except PyExn JVal :=
  if r.contentTypeJson then
    match r.jsonBody with
    | Except.error _ => Except.error PyExn.jsonDecodeError
    | Except.ok jd =>
        match jsonErrorChain jd with
        | Except.ok v => Except.ok v
        | Except.error PyExn.keyError => Except.ok (JVal.str "unknown error")
        | Except.error e => Except.error e
  else
    match r.xmlParse with
    | Except.error _ => Except.ok (JVal.str "unknown error")
    | Except.ok x =>
        match x.errorMessageElem with
        | none => Except.error PyExn.attributeError
        | some (some s) => Except.ok (JVal.str s)
        | some none => Except.ok JVal.null

/-! ### Construction-parameter checks: `Vendor.__init__`
(acquisitions/vendor.py lines 19-37) and `RecSet.__init__`
(config/recset.py lines 40-56)

`Vendor.__init__` ends with `if data is not None: ... elif vendor_code is
not None: pass else: self.error = True; logging.error('Missing
information to construct an Vendor')`.  `RecSet.__init__` stores its
parameters (reading the set id out of a supplied payload) and contains no
such check: the error flag keeps the `False` assigned by the base
constructor whatever the parameters. -/

/-- State of a `Vendor` after `__init__`: the error flag, whether the
missing-information condition was logged, and the stored payload. -/
structure VendorState where
  error : Bool
  missingInfoLogged : Bool
  cached : Option JVal

/-- `Vendor.__init__` restricted to the fields the claims observe. -/
def vendorInit (vendorCode : Option String) (data : Option JVal) : VendorState :=
  match data with
  | some d => VendorState.mk false false (some d)
  | none =>
      match vendorCode with
      | some _ => VendorState.mk false false none
      | none => VendorState.mk true true none

/-- State of a `RecSet` after `__init__`. -/
structure RecSetState where
  error : Bool
  missingInfoLogged : Bool
  setId : Option String
  setName : Option String
  cached : Option SetPayload
  deriving DecidableEq, Repr

/-- `RecSet.__init__` after `__new__`: the base constructor sets
`error = False`; when a payload is supplied and `set_id` is not, the id
is read from the payload's `id` element (`find` returning `None` makes
`.text` raise `AttributeError`).  No construction-parameter check sets
the error flag. -/
def recSetInit (setId : Option String) (name : Option String)
    (data : Option SetPayload) : Except PyExn RecSetState :=
  match data, setId with
  | some p, none =>
      match p.idElem with
      | none => Except.error PyExn.attributeError
      | some t => Except.ok (RecSetState.mk false false t name (some p))
  | _, _ => Except.ok (RecSetState.mk false false setId name data)

/-! ### API-key lookup: `ApiKeys.get_key` (apikeys.py lines 56-84)

The zone-alias test reads `hasattr(self, _zones)` where `_zones` — written
without quotes — is an unbound name, so whenever `zone not in self._keys`
is true the evaluation of the second conjunct raises `NameError` before
the lookup loop or the final `raise KeyError` can run.  For a zone present
in the store, the loop returns the first entry holding a supported API
matching area, permissions and environment, and raises `KeyError` when
none matches. -/

/-- One entry of the key store: the API key and its supported APIs as
(Area, Permissions, Env) triples. -/
structure ApiKeyEntry where
  apiKey : String
  supportedApis : List (String × String × String)
  deriving DecidableEq, Repr

/-- Outcome of `ApiKeys.get_key`. -/
inductive GetKeyOutcome
  | ok (k : String)
  | keyErrorRaised
  | nameErrorRaised
  deriving DecidableEq, Repr

/-- The nested `for` loops of `get_key`: first entry with a supported API
matching the requested area, permissions and environment. -/
def findKey (area permissions env : String) : List ApiKeyEntry → Option String
  | [] => none
  | e :: rest =>
      if e.supportedApis.any
          (fun a => a.1 = area && a.2.1 = permissions && a.2.2 = env) then
        some e.apiKey
      else findKey area permissions env rest

/-- `ApiKeys.get_key` over the key store (zone ↦ entries). -/
def getKey (keys : List (String × List ApiKeyEntry))
    (zone area permissions env : String) : GetKeyOutcome :=
  match keys.lookup zone with
  | none => GetKeyOutcome.nameErrorRaised
  | some entries =>
      match findKey area permissions env entries with
      | some k => GetKeyOutcome.ok k
      | none => GetKeyOutcome.keyErrorRaised

/-- A concrete listing endpoint for a 250-member set answering pages of
100, 100 and 50 identifiers at offsets 0, 100 and 200. -/
def listing250 : Nat → Option (List String) :=
  fun offset =>
    if offset = 0 then some (List.replicate 100 "a")
    else if offset = 100 then some (List.replicate 100 "b")
    else if offset = 200 then some (List.replicate 50 "c")
    else some []

/-! ## Theorems -/

/-- C1: with a transport that raises on every attempt, `_api_call` makes
exactly 3 attempts, logs 3 errors and sleeps 9 seconds — but then returns
`None` to the caller: the critical log and the `exit()` call are
unreachable because the guard compares the attempt counter (which only
takes values 1, 2, 3) with 300, contradicting both the claim and the
method's own docstring ("Quit the program after 3 failed tries"). -/
theorem apiCall_transport_always_failing :
    apiCall "get" (fun _ => none) =
      ApiCallTrace.mk (ApiCallResult.returned none) 3 3 0 9 := rfl

/-- C2: a `check_error`-guarded operation on a record whose error flag is
true skips the wrapped body, logs a skip notice naming the operation,
returns the receiver (state, payload included) unchanged, performs no
fetch and issues no HTTP request. -/
theorem guarded_op_error_state_noop (fnName : String) (st : RecordState α)
    (fetch : FetchOutcome α) (body : RecordState α → RecordState α × Nat)
    (h : st.error = true) :
    guardedCall fnName st fetch body =
      GuardTrace.mk st false false 0 (some fnName) := by
  simp [guardedCall, h]

/-- Witness for C2 at a concrete errored vendor-like record. -/
theorem guarded_op_error_state_noop_witness :
    guardedCall "update" (RecordState.mk true (some "boom") (some "payload"))
      (FetchOutcome.success "fresh") (fun s => (s, 5)) =
      GuardTrace.mk (RecordState.mk true (some "boom") (some "payload"))
        false false 0 (some "update") :=
  guarded_op_error_state_noop "update"
    (RecordState.mk true (some "boom") (some "payload"))
    (FetchOutcome.success "fresh") (fun s => (s, 5)) rfl

/-- C3: two consecutive reads of the `data` property with no intervening
assignment perform at most one fetch; a payload cached before the first
read is returned by both reads with no fetch at all; and when the first
read's fetch fails (setting the error flag) the second read performs no
fetch. -/
theorem data_read_twice_at_most_one_fetch (st : RecordState α)
    (f1 f2 : FetchOutcome α) :
    (((dataReadTwice st f1 f2).2.2.1 && (dataReadTwice st f1 f2).2.2.2) = false)
    ∧ (∀ p, st.cached = some p →
        dataReadTwice st f1 f2 = (st, (some p, some p), (false, false)))
    ∧ (∀ m, st.cached = none → st.error = false →
        f1 = FetchOutcome.failure m →
        (dataReadTwice st f1 f2).2.2 = (true, false)) := by
  rcases st with ⟨err, msg, cached⟩
  cases cached <;> cases err <;> cases f1 <;>
    simp [dataReadTwice, dataRead]

/-- Witness for C3: first fetch fails, second read does not fetch. -/
theorem data_read_twice_at_most_one_fetch_witness :
    (dataReadTwice (RecordState.mk false none none)
      (FetchOutcome.failure "timeout") (FetchOutcome.success "late")).2.2 =
      (true, false) :=
  (data_read_twice_at_most_one_fetch (RecordState.mk false none none)
    (FetchOutcome.failure "timeout") (FetchOutcome.success "late")).2.2
    "timeout" rfl rfl rfl

/-- C10: on a record with no error and no cached payload, a
`check_error`-guarded call evaluates the lazy `data` property inside the
guard itself, performing the fetch before the skip-or-run decision; the
wrapped body then runs (on the fetch-updated receiver) exactly when the
fetch cached a payload, while a failed fetch leaves the guard skipping
with the error flag now set. -/
theorem guard_evaluates_lazy_fetch (fnName : String) (st : RecordState α)
    (fetch : FetchOutcome α) (body : RecordState α → RecordState α × Nat)
    (herr : st.error = false) (hc : st.cached = none) :
    ((guardedCall fnName st fetch body).fetched = true)
    ∧ (∀ p, fetch = FetchOutcome.success p →
        guardedCall fnName st fetch body =
          GuardTrace.mk (body (RecordState.mk false st.errorMsg (some p))).1
            true true ((body (RecordState.mk false st.errorMsg (some p))).2 + 1)
            none)
    ∧ (∀ m, fetch = FetchOutcome.failure m →
        guardedCall fnName st fetch body =
          GuardTrace.mk (RecordState.mk true (some m) none) false true 1
            (some fnName)) := by
  rcases st with ⟨err, msg, cached⟩
  cases herr
  cases hc
  cases fetch <;> simp [guardedCall, dataRead]

/-- Witness for C10: a successful fetch inside the guard makes the body
run on the freshly cached payload. -/
theorem guard_evaluates_lazy_fetch_witness :
    guardedCall "save" (RecordState.mk false none (none (α := String)))
      (FetchOutcome.success "doc") (fun s => (s, 2)) =
      GuardTrace.mk (RecordState.mk false none (some "doc")) true true 3
        none :=
  (guard_evaluates_lazy_fetch "save" (RecordState.mk false none none)
    (FetchOutcome.success "doc") (fun s => (s, 2)) rfl rfl).2.1 "doc" rfl

/-- C4 counterexample: a construction that receives a payload whose type
discriminator equals "ITEMIZED" — passed positionally rather than as the
`data` keyword — yields the generic `RecSet` kind without member-add
behaviour, not an `ItemizedSet`: the dispatch in `__new__` only inspects
`kwargs`. -/
theorem recSetNew_positional_itemized_stays_generic :
    recSetNew (some (SetPayload.mk (some (some "ITEMIZED")) none)) none ≠
      NewOutcome.made SetKind.itemizedSet
    ∧ recSetNew (some (SetPayload.mk (some (some "ITEMIZED")) none)) none =
      NewOutcome.made SetKind.generic := by
  exact ⟨by decide, rfl⟩

/-- C4 (amended): when the payload reaches the constructor as the `data`
keyword argument and carries a `type` element, the allocated class is
`ItemizedSet` exactly when the element's text is "ITEMIZED" and
`LogicalSet` for any other text; only the `ItemizedSet` kind exposes
member-add; and with no `data` keyword (payload absent or passed
positionally) the instance stays the generic `RecSet` kind. -/
theorem recSetNew_keyword_dispatch (dp : Option SetPayload) (p : SetPayload)
    (t : Option String) (h : p.typeElem = some t) :
    ((recSetNew dp (some (some p)) = NewOutcome.made SetKind.itemizedSet) ↔
       t = some "ITEMIZED")
    ∧ (t ≠ some "ITEMIZED" →
        recSetNew dp (some (some p)) = NewOutcome.made SetKind.logicalSet)
    ∧ (∀ k, recSetNew dp (some (some p)) = NewOutcome.made k →
        ((hasMemberAdd k = true) ↔ t = some "ITEMIZED"))
    ∧ (∀ dp', recSetNew dp' none = NewOutcome.made SetKind.generic) := by
  refine ⟨?_, ?_, ?_, fun _ => rfl⟩
  · by_cases ht : t = some "ITEMIZED" <;> simp [recSetNew, h, ht]
  · intro ht
    simp [recSetNew, h, ht]
  · intro k hk
    by_cases ht : t = some "ITEMIZED" <;> simp [recSetNew, h, ht] at hk <;>
      cases hk <;> simp [hasMemberAdd, ht]

/-- Witness for C4's amended theorem: an "ITEMIZED" payload passed as the
`data` keyword produces an `ItemizedSet`. -/
theorem recSetNew_keyword_dispatch_witness :
    recSetNew none (some (some (SetPayload.mk (some (some "ITEMIZED")) none)))
      = NewOutcome.made SetKind.itemizedSet :=
  ((recSetNew_keyword_dispatch none
      (SetPayload.mk (some (some "ITEMIZED")) none)
      (some "ITEMIZED") rfl).1).mpr rfl

/-- C5: with no cached member list, a declared total of 250 and listing
pages of 100, 100 and 50 identifiers, `get_members` issues exactly three
listing calls, each with limit 100 and offset equal to the count
accumulated so far (0, 100, 200), stops once the count reaches the total,
and returns exactly 250 members with no error. -/
theorem get_members_paginated_250 (listing : Nat → Option (List String))
    (l0 l1 l2 : List String)
    (h0 : listing 0 = some l0) (h0l : l0.length = 100)
    (h1 : listing 100 = some l1) (h1l : l1.length = 100)
    (h2 : listing 200 = some l2) (h2l : l2.length = 50) :
    getMembers none 250 listing 4 =
      some (l0 ++ l1 ++ l2, [(100, 0), (100, 100), (100, 200)], false)
    ∧ (l0 ++ l1 ++ l2).length = 250 := by
  have step0 : getMembersLoop 250 listing 4 [] [] =
      getMembersLoop 250 listing 3 l0 [(100, 0)] := by
    simp [getMembersLoop, h0]
  have step1 : getMembersLoop 250 listing 3 l0 [(100, 0)] =
      getMembersLoop 250 listing 2 (l0 ++ l1) [(100, 0), (100, 100)] := by
    simp [getMembersLoop, h0l, h1]
  have step2 : getMembersLoop 250 listing 2 (l0 ++ l1)
        [(100, 0), (100, 100)] =
      getMembersLoop 250 listing 1 (l0 ++ l1 ++ l2)
        [(100, 0), (100, 100), (100, 200)] := by
    simp [getMembersLoop, h0l, h1l, h2]
  have step3 : getMembersLoop 250 listing 1 (l0 ++ l1 ++ l2)
        [(100, 0), (100, 100), (100, 200)] =
      some (l0 ++ l1 ++ l2, [(100, 0), (100, 100), (100, 200)], false) := by
    simp [getMembersLoop, h0l, h1l, h2l]
  refine ⟨?_, by simp [h0l, h1l, h2l]⟩
  calc getMembers none 250 listing 4 = getMembersLoop 250 listing 4 [] [] := rfl
    _ = some (l0 ++ l1 ++ l2, [(100, 0), (100, 100), (100, 200)], false) := by
        rw [step0, step1, step2, step3]

/-- Witness for C5 at the concrete `listing250` endpoint. -/
theorem get_members_paginated_250_witness :
    getMembers none 250 listing250 4 =
      some (List.replicate 100 "a" ++ List.replicate 100 "b" ++
              List.replicate 50 "c",
            [(100, 0), (100, 100), (100, 200)], false)
    ∧ (List.replicate 100 "a" ++ List.replicate 100 "b" ++
        List.replicate 50 "c").length = 250 :=
  get_members_paginated_250 listing250
    (List.replicate 100 "a") (List.replicate 100 "b") (List.replicate 50 "c")
    rfl (by simp) rfl (by simp) rfl (by simp)

/-- The character rendering a decimal digit reads back to that digit. -/
theorem digitChar_toNat (d : Nat) (h : d < 10) :
    (Char.ofNat (48 + d)).toNat = 48 + d := by
  interval_cases d <;> decide

/-- Unfolding of `natDigits` below ten. -/
theorem natDigits_lt10 (n : Nat) (h : n < 10) :
    natDigits n = [Char.ofNat (48 + n)] := by
  rw [natDigits]
  simp [h]

/-- Unfolding of `natDigits` at ten and above. -/
theorem natDigits_ge10 (n : Nat) (h : ¬ n < 10) :
    natDigits n = natDigits (n / 10) ++ [Char.ofNat (48 + n % 10)] := by
  rw [natDigits]
  simp [h]

/-- Folding the digit-reading step over `natDigits n` recovers `n` on top
of the shifted accumulator. -/
theorem foldl_ofDigits_natDigits (n : Nat) :
    ∀ a, List.foldl (fun a c => a * 10 + (c.toNat - 48)) a (natDigits n) =
      a * 10 ^ (natDigits n).length + n := by
  induction n using Nat.strong_induction_on with
  | _ n ih =>
    intro a
    by_cases h : n < 10
    · rw [natDigits_lt10 n h]
      simp [digitChar_toNat n h]
    · rw [natDigits_ge10 n h, List.foldl_append,
        ih (n / 10) (Nat.div_lt_self (by omega) (by omega)) a]
      have hm : n / 10 * 10 + n % 10 = n := by omega
      have hd : (Char.ofNat (48 + n % 10)).toNat - 48 = n % 10 := by
        rw [digitChar_toNat (n % 10) (Nat.mod_lt n (by omega))]
        omega
      simp only [List.foldl, List.length_append, List.length_cons,
        List.length_nil]
      rw [hd]
      calc (a * 10 ^ (natDigits (n / 10)).length + n / 10) * 10 + n % 10
          = a * (10 ^ (natDigits (n / 10)).length * 10) +
              (n / 10 * 10 + n % 10) := by ring
        _ = a * 10 ^ ((natDigits (n / 10)).length + (0 + 1)) + n := by
            rw [hm, pow_succ]

/-- `ofDigits` inverts the decimal rendering. -/
theorem ofDigits_natDigits (n : Nat) : ofDigits (natDigits n) = n := by
  have h := foldl_ofDigits_natDigits n 0
  simpa [ofDigits] using h

/-- Leading zeros do not change the value a digit string reads back to. -/
theorem ofDigits_zero_pad (k : Nat) (s : List Char) :
    ofDigits (List.replicate k '0' ++ s) = ofDigits s := by
  induction k with
  | zero => rfl
  | succ k ih => rw [← ih]; rfl

/-- Zero-padding does not change the value a digit string reads back to. -/
theorem ofDigits_zfill2 (s : List Char) : ofDigits (zfill2 s) = ofDigits s := by
  unfold zfill2
  by_cases h : s.length < 2
  · simp only [h, if_true]
    exact ofDigits_zero_pad (2 - s.length) s
  · simp [h]

/-- The zero-padded version suffix is injective in the version number. -/
theorem versionSuffix_inj (i j : Nat)
    (h : zfill2 (natDigits i) = zfill2 (natDigits j)) : i = j := by
  have hi : ofDigits (zfill2 (natDigits i)) = i := by
    rw [ofDigits_zfill2, ofDigits_natDigits]
  have hj : ofDigits (zfill2 (natDigits j)) = j := by
    rw [ofDigits_zfill2, ofDigits_natDigits]
  rw [← hi, ← hj, h]

/-- A list is a starts-with match of itself followed by anything. -/
theorem beginsWith_append (b t : List Char) : beginsWith b (b ++ t) = true := by
  induction b with
  | nil => rfl
  | cons a as ih => simp [beginsWith, ih]

/-- The substring test accepts any extension of the needle. -/
theorem containsSub_append_self (b t : List Char) :
    containsSub b (b ++ t) = true := by
  cases b with
  | nil => cases t <;> simp [containsSub, beginsWith]
  | cons a as =>
      have hb := beginsWith_append (a :: as) t
      simp only [List.cons_append] at hb
      simp [containsSub, hb]

/-- Snapshot filenames are injective in the version number. -/
theorem snapName_inj (base ext : List Char) (i j : Nat)
    (h : snapName base ext i = snapName base ext j) : i = j := by
  unfold snapName at h
  have h1 := List.append_cancel_left h
  injection h1 with _ h2
  exact versionSuffix_inj i j (List.append_cancel_right h2)

/-- Counting the files of the first `n` snapshot names that contain the
base filename yields `n`, so the next version number is `n + 1`. -/
theorem saveVersion_of_range (base ext : List Char) (n : Nat) :
    saveVersion ((List.range n).map (fun k => snapName base ext (k + 1)))
      base = n + 1 := by
  unfold saveVersion
  have hf : List.filter (fun f => containsSub base f)
      ((List.range n).map (fun k => snapName base ext (k + 1))) =
      (List.range n).map (fun k => snapName base ext (k + 1)) := by
    apply List.filter_eq_self.mpr
    intro a ha
    simp only [List.mem_map, List.mem_range] at ha
    obtain ⟨k, _, rfl⟩ := ha
    exact containsSub_append_self base _
  rw [hf]
  simp

/-- `n` saves into a fresh directory leave exactly the snapshot names of
versions `1` through `n`, in order. -/
theorem saveN_spec (base ext : List Char) (n : Nat) :
    saveN base ext n =
      (List.range n).map (fun k => snapName base ext (k + 1)) := by
  induction n with
  | zero => rfl
  | succ n ih =>
      show saveOnce (saveN base ext n) base ext = _
      rw [ih, List.range_succ, List.map_append]
      unfold saveOnce
      rw [saveVersion_of_range]
      simp

/-- The version the `n + 1`-st save computes is `n + 1`. -/
theorem saveVersion_saveN (base ext : List Char) (n : Nat) :
    saveVersion (saveN base ext n) base = n + 1 := by
  rw [saveN_spec]
  exact saveVersion_of_range base ext n

/-- C6: starting from a fresh directory, each of `n` consecutive saves of
the same record computes its version as the count of existing files whose
name contains the base filename plus one, and the `n` saves produce `n`
pairwise-distinct files, no save writing a filename already present in the
directory (append-only, no overwrite). -/
theorem snapshot_saves_append_only (base ext : List Char) (n : Nat) :
    ((saveN base ext n).length = n)
    ∧ (saveN base ext n).Nodup
    ∧ (∀ k, k < n → saveVersion (saveN base ext k) base = k + 1)
    ∧ (∀ k, k < n →
        snapName base ext (saveVersion (saveN base ext k) base) ∉
          saveN base ext k) := by
  refine ⟨?_, ?_, fun k _ => saveVersion_saveN base ext k, ?_⟩
  · rw [saveN_spec]
    simp
  · rw [saveN_spec]
    refine List.Nodup.map ?_ (List.nodup_range n)
    intro a b hab
    have := snapName_inj base ext (a + 1) (b + 1) hab
    omega
  · intro k _
    rw [saveVersion_saveN, saveN_spec]
    intro hmem
    simp only [List.mem_map, List.mem_range] at hmem
    obtain ⟨j, hj, hje⟩ := hmem
    have := snapName_inj base ext (j + 1) (k + 1) hje
    omega

/-- Witness for C6: three saves of `set_s.x` produce distinct files and
the second save does not overwrite the first. -/
theorem snapshot_saves_append_only_witness :
    (saveN ['s'] ['x'] 3).Nodup
    ∧ saveVersion (saveN ['s'] ['x'] 1) ['s'] = 2
    ∧ snapName ['s'] ['x'] (saveVersion (saveN ['s'] ['x'] 1) ['s']) ∉
        saveN ['s'] ['x'] 1 :=
  ⟨(snapshot_saves_append_only ['s'] ['x'] 3).2.1,
   (snapshot_saves_append_only ['s'] ['x'] 3).2.2.1 1 (by decide),
   (snapshot_saves_append_only ['s'] ['x'] 3).2.2.2 1 (by decide)⟩

/-- C7 counterexample: a non-JSON response whose body is well-formed XML
without an `errorMessage` element makes the extraction raise
`AttributeError` out of the handler instead of yielding the literal
"unknown error": only `XMLSyntaxError` is caught. -/
theorem handle_error_elementless_xml_raises :
    handleErrorExtract
      (ErrResponse.mk false (Except.ok JVal.null)
        (Except.ok (XmlErrView.mk none))) =
      Except.error PyExn.attributeError
    ∧ handleErrorExtract
        (ErrResponse.mk false (Except.ok JVal.null)
          (Except.ok (XmlErrView.mk none))) ≠
        Except.ok (JVal.str "unknown error") :=
  ⟨rfl, fun h => Except.noConfusion h⟩

/-- C7 (amended): the extracted message follows the content-type priority
— for a JSON content-type it is `errorList.error[0].errorMessage`, with
missing dictionary keys (`KeyError`) falling back to "unknown error"; for
any other content-type it is the text of the namespaced XML
`errorMessage` element, with syntactically invalid XML falling back to
"unknown error" — but well-formed XML lacking the element raises
`AttributeError` out of the handler rather than falling back. -/
theorem handle_error_extraction_priority (r : ErrResponse) :
    (r.contentTypeJson = true → ∀ jd, r.jsonBody = Except.ok jd →
      ((∀ v, jsonErrorChain jd = Except.ok v →
          handleErrorExtract r = Except.ok v)
       ∧ (jsonErrorChain jd = Except.error PyExn.keyError →
          handleErrorExtract r = Except.ok (JVal.str "unknown error"))))
    ∧ (r.contentTypeJson = false →
      ((∀ u, r.xmlParse = Except.error u →
          handleErrorExtract r = Except.ok (JVal.str "unknown error"))
       ∧ (∀ s, r.xmlParse = Except.ok (XmlErrView.mk (some (some s))) →
          handleErrorExtract r = Except.ok (JVal.str s))
       ∧ (r.xmlParse = Except.ok (XmlErrView.mk none) →
          handleErrorExtract r = Except.error PyExn.attributeError))) := by
  rcases r with ⟨ct, jb, xp⟩
  constructor
  · rintro rfl jd rfl
    constructor
    · intro v hv
      simp [handleErrorExtract, hv]
    · intro hk
      simp [handleErrorExtract, hk]
  · rintro rfl
    refine ⟨?_, ?_, ?_⟩
    · rintro u rfl
      simp [handleErrorExtract]
    · rintro s rfl
      simp [handleErrorExtract]
    · rintro rfl
      simp [handleErrorExtract]

/-- Witness for C7's amended theorem: a JSON 400 body with the full error
list yields its `errorMessage`; the same JSON body with the `errorList`
key absent yields "unknown error". -/
theorem handle_error_extraction_priority_witness :
    handleErrorExtract
      (ErrResponse.mk true
        (Except.ok (JVal.obj [("errorList",
          JVal.obj [("error",
            JVal.arr [JVal.obj [("errorMessage",
              JVal.str "Set not found")]])])]))
        (Except.error ())) =
      Except.ok (JVal.str "Set not found")
    ∧ handleErrorExtract
        (ErrResponse.mk true (Except.ok (JVal.obj [])) (Except.error ())) =
        Except.ok (JVal.str "unknown error") :=
  ⟨((handle_error_extraction_priority
      (ErrResponse.mk true
        (Except.ok (JVal.obj [("errorList",
          JVal.obj [("error",
            JVal.arr [JVal.obj [("errorMessage",
              JVal.str "Set not found")]])])]))
        (Except.error ()))).1 rfl _ rfl).1 (JVal.str "Set not found") rfl,
   ((handle_error_extraction_priority
      (ErrResponse.mk true (Except.ok (JVal.obj [])) (Except.error ()))).1
      rfl _ rfl).2 rfl⟩

/-- C8 counterexample: a `RecSet` constructed with no set id, no name and
no payload completes construction with the error flag still false and no
missing-parameters log entry — `RecSet.__init__` has no
insufficient-construction-parameters check. -/
theorem recSet_keyless_construction_error_false :
    recSetInit none none none =
      Except.ok (RecSetState.mk false false none none none) := rfl

/-- C8 (amended): `Vendor` constructed with no vendor code and no payload
sets the error flag synchronously at construction, before any network
attempt, and logs the missing-information condition as its own failure
mode; any subsequent `data` read on a record whose error flag is true
performs no fetch.  `RecSet`, by contrast, performs no such construction
check: built with no identifying keys and no payload its error flag stays
false. -/
theorem vendor_keyless_construction_error (f : FetchOutcome String) :
    ((vendorInit none none).error = true)
    ∧ ((vendorInit none none).missingInfoLogged = true)
    ∧ ((vendorInit none none).cached = none)
    ∧ ((dataRead (RecordState.mk (vendorInit none none).error none
          (none (α := String))) f).2.2 = false)
    ∧ (∃ st, recSetInit none none none = Except.ok st ∧ st.error = false) := by
  refine ⟨rfl, rfl, rfl, ?_, ⟨RecSetState.mk false false none none none,
    rfl, rfl⟩⟩
  simp [dataRead, vendorInit]

/-- Witness for C8's amended theorem at a concrete fetch outcome. -/
theorem vendor_keyless_construction_error_witness :
    ((vendorInit none none).error = true)
    ∧ ((dataRead (RecordState.mk (vendorInit none none).error none
          (none (α := String))) (FetchOutcome.success "x")).2.2 = false) :=
  ⟨(vendor_keyless_construction_error (FetchOutcome.success "x")).1,
   (vendor_keyless_construction_error (FetchOutcome.success "x")).2.2.2.1⟩

/-- C9: `get_key` asked for a zone entirely absent from the key store
raises `NameError` — the zone-alias guard evaluates the unquoted, unbound
name `_zones` — instead of the `KeyError` its own docstring promises. -/
theorem getKey_absent_zone_raises_name_error :
    getKey [] "XYZ" "Users" "RW" "P" = GetKeyOutcome.nameErrorRaised
    ∧ getKey [("NZ", [ApiKeyEntry.mk "k1" [("Users", "RW", "P")]])]
        "XYZ" "Users" "RW" "P" = GetKeyOutcome.nameErrorRaised
    ∧ getKey [("NZ", [ApiKeyEntry.mk "k1" [("Users", "RW", "P")]])]
        "NZ" "Bibs" "RW" "P" = GetKeyOutcome.keyErrorRaised := by
  exact ⟨rfl, rfl, rfl⟩

end Almapi
